import Mathlib

/-!
Verification of the reconciliation / send-orchestration core of the
RoleMatch AI job-automation app (`app.py`), as a shallow embedding.

The embedding covers:
  * the job-tracker worksheet lookup/creation (`get_or_create_user_sheet`),
  * the Gemini analyze handler (JSON output → batch of job rows),
  * the reconciliation filter (`sent_emails`, `job_df_filtered`),
  * the send-email button handler (duplicate guard, SMTP send, sheet append).
-/

/-! ## Data model -/

/-- One row of the Google-Sheet job tracker, as read back by
`pd.DataFrame(sheet.get_all_records())`.  Only the two columns the
reconciliation logic consults are modelled. -/
structure LedgerRow where
  contactEmail : String
  status : String
deriving DecidableEq, Repr

/-- The tracker DataFrame `data`.  `hasStatusCol` models whether the
`"Status"` column exists (`pd.DataFrame([])` of an empty record list has no
columns at all). -/
structure LedgerDF where
  hasStatusCol : Bool
  rows : List LedgerRow
deriving DecidableEq, Repr

/-- One row of the extracted-jobs DataFrame `job_df` built by the analyze
handler.  Free-text fields are `Option String`: `job.get(key)` yields `None`
when the key is absent, and a non-string cell behaves like a missing value
under the `.str` accessor used by the filter. -/
structure JobRow where
  job_id : Nat
  job_title : Option String
  company : Option String
  apply_email : Option String
  job_type : Option String
  location : Option String
  skills : Option String
  jd_summary : Option String
  email_subject : Option String
  email_body_draft : Option String
deriving DecidableEq, Repr

/-- The extracted-jobs DataFrame.  `hasApplyEmailCol` models whether the
`"apply_email"` column exists; when it does not, the handler executes
`job_df["apply_email"] = ""`, filling every row with the empty string. -/
structure JobDF where
  hasApplyEmailCol : Bool
  rows : List JobRow
deriving DecidableEq, Repr

/-! ## Reconciliation filter (`app.py` lines 261-275) -/

/-- `sent_emails = data.loc[data["Status"] == "SENT", "Contact Email"].tolist()`
when the `"Status"` column exists, `[]` otherwise. -/
def sent_emails (data : LedgerDF) : List String :=
  if data.hasStatusCol then
    (data.rows.filter (fun r => r.status == "SENT")).map (fun r => r.contactEmail)
  else []

/-- `job_df["apply_email"].str.contains("@", na=False)` on one cell: a
missing/NaN cell counts as `false`. -/
def emailOk : Option String → Bool
  | some s => s.data.contains '@'
  | none => false

/-- `job_df["apply_email"].isin(sent_emails)` on one cell: a missing cell is
never a member of a list of strings. -/
def inSent : Option String → List String → Bool
  | some s, sent => sent.contains s
  | none, _ => false

/-- `if "apply_email" not in job_df.columns: job_df["apply_email"] = ""`. -/
def normalizeJobDF (df : JobDF) : List JobRow :=
  if df.hasApplyEmailCol then df.rows
  else df.rows.map (fun r => { r with apply_email := some "" })

/-- The boolean mask of
`job_df[(job_df["apply_email"].str.contains("@", na=False)) &
        (~job_df["apply_email"].isin(sent_emails))]`. -/
def filterJobs (jobs : List JobRow) (sent : List String) : List JobRow :=
  jobs.filter (fun r => emailOk r.apply_email && ! inSent r.apply_email sent)

/-- `job_df_filtered`, the eligible set exposed for selection. -/
def job_df_filtered (df : JobDF) (data : LedgerDF) : List JobRow :=
  filterJobs (normalizeJobDF df) (sent_emails data)

/-- The transient session together with the tracker snapshot; running the
"filter sent emails" block normalizes `job_df` in place (the missing-column
assignment mutates the session DataFrame) and computes the eligible set. -/
structure Session where
  job_df : JobDF
  data : LedgerDF
deriving DecidableEq, Repr

/-- One run of the reconciliation block: returns the (possibly normalized)
session and the eligible set. -/
def reconcile (s : Session) : Session × List JobRow :=
  ({ s with job_df := { hasApplyEmailCol := true, rows := normalizeJobDF s.job_df } },
   filterJobs (normalizeJobDF s.job_df) (sent_emails s.data))

/-! ## Send orchestration (`app.py` lines 312-353) -/

/-- Outcome of the SMTP block (`starttls`/`login`/`send_message`). -/
inductive MailerOutcome
  | ok
  | err (msg : String)
deriving DecidableEq, Repr

/-- Outcome of `sheet.append_row`. -/
inductive AppendOutcome
  | ok
  | err (msg : String)
deriving DecidableEq, Repr

/-- What the handler surfaces to the user. -/
inductive SendResult
  | duplicateStop
  | sendFailed (msg : String)
  | sent
deriving DecidableEq, Repr

/-- Externally visible side effects of the handler, in order of occurrence:
a Mailer invocation, or a row durably appended to the Ledger. -/
inductive Event
  | mailerInvoke
  | ledgerAppend
deriving DecidableEq, Repr

/-- The "🚀 Send Email" button handler: duplicate guard, then
`try: SMTP send; sheet.append_row(...) except Exception as e:
st.error(f"Failed to send email: {e}")`.  The single `except` clause
catches both a Mailer failure and an append failure. -/
def sendEmailHandler (sent : List String) (email_to : String)
    (mailer : MailerOutcome) (append : AppendOutcome) : SendResult × List Event :=
  if sent.contains email_to then
    (.duplicateStop, [])
  else
    match mailer with
    | .err e => (.sendFailed ("Failed to send email: " ++ e), [.mailerInvoke])
    | .ok =>
      match append with
      | .ok => (.sent, [.mailerInvoke, .ledgerAppend])
      | .err e => (.sendFailed ("Failed to send email: " ++ e), [.mailerInvoke])

/-! ## Worksheet get-or-create (`app.py` lines 54-79) -/

/-- Python's `str.replace` for a single-character pattern. -/
def replaceChar (s : String) (pat repl : Char) : String :=
  ⟨s.data.map (fun c => if c = pat then repl else c)⟩

/-- `user_email.replace("@", "_").replace(".", "_")`. -/
def sheet_title (user_email : String) : String :=
  replaceChar (replaceChar user_email '@' '_') '.' '_'

/-- The fixed header appended when a worksheet is first created. -/
def ledgerHeader : List String :=
  ["Post ID", "Job Title", "Company", "Contact Email", "Status",
   "Relevance", "Notes", "Date Processed"]

/-- The spreadsheet: worksheets keyed by title, each a list of rows. -/
structure Spreadsheet where
  worksheets : List (String × List (List String))
deriving DecidableEq, Repr

/-- `get_or_create_user_sheet`: look the sanitized title up; on
`WorksheetNotFound`, add a worksheet and append the fixed header row.
Returns the updated spreadsheet and the worksheet handle (its title). -/
def get_or_create_user_sheet (sh : Spreadsheet) (user_email : String) :
    Spreadsheet × String :=
  match sh.worksheets.find? (fun w => w.fst == sheet_title user_email) with
  | some _ => (sh, sheet_title user_email)
  | none =>
    (⟨sh.worksheets ++ [(sheet_title user_email, [ledgerHeader])]⟩,
     sheet_title user_email)

/-! ## Analyze handler (`app.py` lines 226-256) -/

/-- JSON values, as returned by `json.loads`. -/
inductive JValue
  | jnull
  | jbool (b : Bool)
  | jnum (n : Int)
  | jstr (s : String)
  | jarr (xs : List JValue)
  | jobj (fields : List (String × JValue))

/-- `d.get(k)` on a parsed JSON object. -/
def jget (fields : List (String × JValue)) (k : String) : Option JValue :=
  (fields.find? (fun p => p.fst == k)).map (fun p => p.snd)

/-- A cell value as it behaves in the later string filter: only an actual
JSON string acts as a string; anything else (absent, null, number, ...)
behaves as a missing value. -/
def asStr : Option JValue → Option String
  | some (.jstr s) => some s
  | _ => none

/-- One iteration of `for idx, job in enumerate(jobs, start=1)`: `job.get`
raises `AttributeError` unless `job` is a dict. -/
def parseJobElem (idx : Nat) : JValue → Except String JobRow
  | .jobj fields =>
    .ok { job_id := idx
          job_title := asStr (jget fields "job_title")
          company := asStr (jget fields "company")
          apply_email := asStr (jget fields "apply_email")
          job_type := asStr (jget fields "job_type")
          location := asStr (jget fields "location")
          skills := asStr (jget fields "skills")
          jd_summary := asStr (jget fields "jd_summary")
          email_subject := asStr (jget fields "email_subject")
          email_body_draft := asStr (jget fields "email_body_draft") }
  | _ => .error "AttributeError: object has no attribute get"

/-- The `rows` loop over the jobs list. -/
def buildRows : Nat → List JValue → Except String (List JobRow)
  | _, [] => .ok []
  | idx, j :: rest => do
    let r ← parseJobElem idx j
    let rs ← buildRows (idx + 1) rest
    .ok (r :: rs)

/-- `gemini_output = json.loads(response.text); jobs = gemini_output.get("jobs", [])`
followed by the row-building loop.  A `json.loads` failure is the `.error`
input; `.get` raises on a non-dict; iterating a non-list `jobs` either
yields zero rows (empty string / empty dict) or raises. -/
def analyzeBatch (parsed : Except String JValue) : Except String (List JobRow) :=
  match parsed with
  | .error e => .error e
  | .ok (.jobj fields) =>
    match jget fields "jobs" with
    | none => .ok []
    | some (.jarr xs) => buildRows 1 xs
    | some (.jstr s) =>
      if s.isEmpty then .ok []
      else .error "AttributeError: object has no attribute get"
    | some (.jobj fs) =>
      if fs.isEmpty then .ok []
      else .error "AttributeError: object has no attribute get"
    | some _ => .error "TypeError: object is not iterable"
  | .ok _ => .error "AttributeError: object has no attribute get"

/-- The analyze button handler acting on `st.session_state["job_df"]`: an
exception anywhere before the final assignment leaves the session unchanged
and surfaces the error; otherwise the batch replaces the session batch. -/
def analyzeHandler (parsed : Except String JValue) (sess : Option (List JobRow)) :
    Option (List JobRow) × Option String :=
  match analyzeBatch parsed with
  | .error e => (sess, some e)
  | .ok rows => (some rows, none)

/-! ## Auxiliary definitions for statements -/

/-- Case-insensitive view of an address (used only to state case-sensitivity
properties; the code itself never lowercases). -/
def lowerStr (s : String) : String :=
  ⟨s.data.map Char.toLower⟩

/-! ## Sample data used by witnesses and counterexamples -/

def rowA : JobRow := ⟨1, none, none, some "a@x.com", none, none, none, none, none, none⟩

def rowBad : JobRow := ⟨2, none, none, some "bad-address", none, none, none, none, none, none⟩

def rowB : JobRow := ⟨3, none, none, some "b@y.com", none, none, none, none, none, none⟩

def rowNull : JobRow := ⟨4, none, none, none, none, none, none, none, none, none⟩

def ledgerA : LedgerDF := ⟨true, [⟨"a@x.com", "SENT"⟩]⟩

def ledgerUpperA : LedgerDF := ⟨true, [⟨"A@x.com", "SENT"⟩]⟩

/-! ## Helper lemmas -/

/-- Membership in the filter's output, unfolded to its two conjuncts. -/
theorem mem_filterJobs (jobs : List JobRow) (sent : List String) (j : JobRow) :
    j ∈ filterJobs jobs sent ↔
      j ∈ jobs ∧ emailOk j.apply_email = true ∧
        inSent j.apply_email sent = false := by
  unfold filterJobs
  simp [List.mem_filter, Bool.and_eq_true, Bool.not_eq_true', and_assoc]

/-- When the `apply_email` column exists, normalization is the identity. -/
theorem normalizeJobDF_of_hasCol (df : JobDF) (hcol : df.hasApplyEmailCol = true) :
    normalizeJobDF df = df.rows := by
  unfold normalizeJobDF
  rw [hcol]
  simp

/-- A missing cell is never a member of the list form of the sent set. -/
theorem inSent_nil (e : Option String) : inSent e [] = false := by
  cases e <;> rfl

/-! ## Theorems -/

/-- Claim C1: for every extraction batch and ledger state, a JobRecord `j`
is in the eligible set computed by the reconciliation filter iff
`j.apply_email` contains `"@"` and is not a member of the sent set (the
contact emails of ledger rows whose status is `SENT`). -/
theorem claim1_filter_mem_iff (df : JobDF) (data : LedgerDF) (j : JobRow)
    (hcol : df.hasApplyEmailCol = true) :
    j ∈ job_df_filtered df data ↔
      j ∈ df.rows ∧ emailOk j.apply_email = true ∧
        inSent j.apply_email (sent_emails data) = false := by
  unfold job_df_filtered
  rw [normalizeJobDF_of_hasCol df hcol]
  exact mem_filterJobs df.rows (sent_emails data) j

/-- Witness for C1 at a concrete batch and ledger. -/
theorem claim1_witness :
    rowB ∈ job_df_filtered ⟨true, [rowA, rowBad, rowB]⟩ ledgerA :=
  (claim1_filter_mem_iff ⟨true, [rowA, rowBad, rowB]⟩ ledgerA rowB rfl).mpr
    ⟨by decide, by decide, by decide⟩

/-- Claim C5: reconciliation against an empty or freshly created ledger
partition (no rows, or no status column) yields an empty sent set without
error, and the eligible set is the full batch minus the records whose
`apply_email` does not contain `"@"`. -/
theorem claim5_empty_ledger (data : LedgerDF) (df : JobDF)
    (h : data.hasStatusCol = false ∨ data.rows = []) :
    sent_emails data = [] ∧
      (df.hasApplyEmailCol = true →
        job_df_filtered df data =
          df.rows.filter (fun r => emailOk r.apply_email)) := by
  have hsent : sent_emails data = [] := by
    unfold sent_emails
    rcases h with h | h
    · rw [h]
      simp
    · rw [h]
      simp
  refine ⟨hsent, fun hcol => ?_⟩
  unfold job_df_filtered
  rw [normalizeJobDF_of_hasCol df hcol, hsent]
  unfold filterJobs
  apply List.filter_congr
  intro r _
  rw [inSent_nil]
  simp

/-- Witness for C5 at a concrete batch and an empty ledger. -/
theorem claim5_witness :
    sent_emails ⟨false, []⟩ = [] ∧
      job_df_filtered ⟨true, [rowA, rowBad]⟩ ⟨false, []⟩ =
        [rowA, rowBad].filter (fun r => emailOk r.apply_email) := by
  have h := claim5_empty_ledger ⟨false, []⟩ ⟨true, [rowA, rowBad]⟩ (Or.inl rfl)
  exact ⟨h.1, h.2 rfl⟩

/-- Claim C6: reconciliation is a pure function of the batch and the ledger
snapshot; running the reconciliation block twice in a row with no
intervening sends yields the identical eligible set (and the second run
leaves the session unchanged). -/
theorem claim6_reconcile_idempotent (s : Session) :
    (reconcile (reconcile s).fst).snd = (reconcile s).snd ∧
      (reconcile (reconcile s).fst).fst = (reconcile s).fst :=
  ⟨rfl, rfl⟩

/-- Claim C10: the reconciliation filter is total on missing/null
`apply_email` cells: a record with no address is excluded rather than an
error, and a batch lacking the `apply_email` column entirely has every
record excluded. -/
theorem claim10_null_total (data : LedgerDF) (rows : List JobRow) (j : JobRow) :
    (j.apply_email = none → j ∉ job_df_filtered ⟨true, rows⟩ data) ∧
      job_df_filtered ⟨false, rows⟩ data = [] := by
  constructor
  · intro hnull hmem
    unfold job_df_filtered at hmem
    rw [normalizeJobDF_of_hasCol ⟨true, rows⟩ rfl] at hmem
    rw [mem_filterJobs] at hmem
    rw [hnull] at hmem
    exact absurd hmem.2.1 (by decide)
  · unfold job_df_filtered filterJobs normalizeJobDF
    rw [List.filter_eq_nil_iff]
    intro a ha
    simp only [show (⟨false, rows⟩ : JobDF).hasApplyEmailCol = false from rfl,
      Bool.false_eq_true, if_false, List.mem_map] at ha
    rcases ha with ⟨r, _, rfl⟩
    simp [emailOk]

/-- Witness for C10 at a concrete null-address record and a concrete batch
with no `apply_email` column. -/
theorem claim10_witness :
    rowNull ∉ job_df_filtered ⟨true, [rowNull]⟩ ledgerA ∧
      job_df_filtered ⟨false, [rowA]⟩ ledgerA = [] := by
  have h := claim10_null_total ledgerA [rowNull] rowNull
  have h2 := claim10_null_total ledgerA [rowA] rowNull
  exact ⟨h.1 rfl, h2.2⟩

/-- Claim C2: a send invocation whose `email_to` is already in the sent set
stops with the duplicate-send error and performs zero Mailer invocations and
zero Ledger appends. -/
theorem claim2_duplicate_guard (data : LedgerDF) (email_to : String)
    (mailer : MailerOutcome) (append : AppendOutcome)
    (h : (sent_emails data).contains email_to = true) :
    sendEmailHandler (sent_emails data) email_to mailer append =
      (.duplicateStop, []) := by
  unfold sendEmailHandler
  rw [h]
  simp

/-- Witness for C2: the already-sent address is rejected with no effects. -/
theorem claim2_witness :
    sendEmailHandler (sent_emails ledgerA) "a@x.com" .ok .ok =
      (.duplicateStop, []) :=
  claim2_duplicate_guard ledgerA "a@x.com" .ok .ok (by decide)

/-- Claim C3: past the duplicate guard, a successful Mailer invocation is
followed by exactly one Ledger append (one invocation each, in that order),
and a failing Mailer invocation surfaces the failure with zero Ledger
appends. -/
theorem claim3_send_order (data : LedgerDF) (email_to : String)
    (h : (sent_emails data).contains email_to = false) :
    sendEmailHandler (sent_emails data) email_to .ok .ok =
        (.sent, [.mailerInvoke, .ledgerAppend]) ∧
      ∀ (e : String) (append : AppendOutcome),
        sendEmailHandler (sent_emails data) email_to (.err e) append =
          (.sendFailed ("Failed to send email: " ++ e), [.mailerInvoke]) := by
  unfold sendEmailHandler
  rw [h]
  simp

/-- Witness for C3 at a fresh address against a concrete ledger. -/
theorem claim3_witness :
    sendEmailHandler (sent_emails ledgerA) "b@y.com" .ok .ok =
        (.sent, [.mailerInvoke, .ledgerAppend]) ∧
      sendEmailHandler (sent_emails ledgerA) "b@y.com" (.err "boom") .ok =
        (.sendFailed ("Failed to send email: " ++ "boom"), [.mailerInvoke]) := by
  have h := claim3_send_order ledgerA "b@y.com" (by decide)
  exact ⟨h.1, h.2 "boom" .ok⟩

/-- Counterexample to claim C4: a Ledger-append failure after a successful
send and a plain Mailer failure surface the identical result — the single
`except Exception` clause reports both as `Failed to send email: ...`, so no
distinct `LedgerWriteAfterSendError` class distinguishable from a Mailer
failure exists. -/
theorem claim4_counterexample :
    (sendEmailHandler (sent_emails ledgerA) "b@y.com" .ok (.err "boom")).fst =
        (sendEmailHandler (sent_emails ledgerA) "b@y.com" (.err "boom") .ok).fst ∧
      (sendEmailHandler (sent_emails ledgerA) "b@y.com" .ok (.err "boom")).fst =
        .sendFailed "Failed to send email: boom" := by
  decide

/-- Claim C4 as amended: when the Mailer succeeds but the Ledger append
fails, the failure is surfaced to the caller, but through the same generic
`Failed to send email` path as a Mailer failure — the two failure modes are
not distinguishable by the surfaced result. -/
theorem claim4_same_error_path (data : LedgerDF) (email_to e : String)
    (h : (sent_emails data).contains email_to = false) :
    sendEmailHandler (sent_emails data) email_to .ok (.err e) =
        (.sendFailed ("Failed to send email: " ++ e), [.mailerInvoke]) ∧
      (sendEmailHandler (sent_emails data) email_to .ok (.err e)).fst =
        (sendEmailHandler (sent_emails data) email_to (.err e) .ok).fst := by
  unfold sendEmailHandler
  rw [h]
  simp

/-- Witness for the amended C4 at a concrete ledger and address. -/
theorem claim4_witness :
    sendEmailHandler (sent_emails ledgerA) "b@y.com" .ok (.err "down") =
        (.sendFailed ("Failed to send email: " ++ "down"), [.mailerInvoke]) ∧
      (sendEmailHandler (sent_emails ledgerA) "b@y.com" .ok (.err "down")).fst =
        (sendEmailHandler (sent_emails ledgerA) "b@y.com" (.err "down") .ok).fst :=
  claim4_same_error_path ledgerA "b@y.com" "down" (by decide)

/-- Claim C9: address comparisons are exact, case-sensitive string
equality: a record whose address differs only in letter case from a
`SENT` contact email (and is not itself literally recorded) stays in the
eligible set and passes the duplicate-send guard. -/
theorem claim9_case_sensitive (df : JobDF) (data : LedgerDF) (j : JobRow)
    (s t : String) (hcol : df.hasApplyEmailCol = true) (hj : j ∈ df.rows)
    (he : j.apply_email = some s) (hat : emailOk (some s) = true)
    (ht : t ∈ sent_emails data) (hne : t ≠ s) (hlower : lowerStr t = lowerStr s)
    (hnotin : (sent_emails data).contains s = false) :
    j ∈ job_df_filtered df data ∧
      ∀ (mailer : MailerOutcome) (append : AppendOutcome),
        (sendEmailHandler (sent_emails data) s mailer append).fst ≠
          .duplicateStop := by
  constructor
  · unfold job_df_filtered
    rw [normalizeJobDF_of_hasCol df hcol, mem_filterJobs]
    refine ⟨hj, ?_, ?_⟩
    · rw [he]
      exact hat
    · rw [he]
      exact hnotin
  · intro mailer append
    unfold sendEmailHandler
    rw [hnotin]
    cases mailer <;> cases append <;> simp

/-- Witness for C9: `a@x.com` is eligible and sendable although `A@x.com`
is recorded as `SENT`. -/
theorem claim9_witness :
    rowA ∈ job_df_filtered ⟨true, [rowA]⟩ ledgerUpperA ∧
      (sendEmailHandler (sent_emails ledgerUpperA) "a@x.com" .ok .ok).fst ≠
        .duplicateStop := by
  have h := claim9_case_sensitive ⟨true, [rowA]⟩ ledgerUpperA rowA
    "a@x.com" "A@x.com" rfl (by decide) rfl (by decide) (by decide)
    (by decide) (by decide) (by decide)
  exact ⟨h.1, h.2 .ok .ok⟩

/-- The handle returned by `get_or_create_user_sheet` is always the
sanitized title of the identity. -/
theorem get_or_create_snd (sh : Spreadsheet) (e : String) :
    (get_or_create_user_sheet sh e).snd = sheet_title e := by
  unfold get_or_create_user_sheet
  cases sh.worksheets.find? (fun w => w.fst == sheet_title e) <;> rfl

/-- Appending a worksheet with title `t` to a list in which `t` was absent
makes the lookup of `t` find exactly it. -/
theorem find_title_self (ws : List (String × List (List String))) (t : String)
    (h : ws.find? (fun w => w.fst == t) = none) :
    (ws ++ [(t, [ledgerHeader])]).find? (fun w => w.fst == t) =
      some (t, [ledgerHeader]) := by
  rw [List.find?_append, h]
  simp

/-- Counterexample to claim C8: `"a@b.c"` and `"a.b@c"` are distinct sender
identities, yet after the first one's partition is created, get-or-create
for the second returns the same spreadsheet (creates nothing) and the same
handle — the sanitized titles collide, so the identities share one
partition. -/
theorem claim8_counterexample :
    ("a@b.c" : String) ≠ "a.b@c" ∧
      get_or_create_user_sheet
          (get_or_create_user_sheet ⟨[]⟩ "a@b.c").fst "a.b@c" =
        ((get_or_create_user_sheet ⟨[]⟩ "a@b.c").fst,
         (get_or_create_user_sheet ⟨[]⟩ "a@b.c").snd) := by
  decide

/-- Claim C8 as amended: repeated get-or-create calls for the same identity
return the existing partition unchanged; the partition is created lazily on
first use with exactly the fixed eight-column header; and distinct sender
identities receive distinct partitions only when their sanitized titles
(`@` and `.` replaced by `_`) differ — identities whose sanitized titles
collide share one partition. -/
theorem claim8_partition (sh : Spreadsheet) (e1 e2 : String) :
    get_or_create_user_sheet (get_or_create_user_sheet sh e1).fst e1 =
        get_or_create_user_sheet sh e1 ∧
      (sh.worksheets.find? (fun w => w.fst == sheet_title e1) = none →
        (get_or_create_user_sheet sh e1).fst.worksheets =
          sh.worksheets ++ [(sheet_title e1, [ledgerHeader])]) ∧
      (sheet_title e1 ≠ sheet_title e2 →
        (get_or_create_user_sheet sh e1).snd ≠
          (get_or_create_user_sheet sh e2).snd) := by
  refine ⟨?_, ?_, ?_⟩
  · cases h : sh.worksheets.find? (fun w => w.fst == sheet_title e1) with
    | some w =>
      have hfst : get_or_create_user_sheet sh e1 = (sh, sheet_title e1) := by
        unfold get_or_create_user_sheet
        rw [h]
      rw [hfst]
      exact hfst
    | none =>
      have hfst : get_or_create_user_sheet sh e1 =
          (⟨sh.worksheets ++ [(sheet_title e1, [ledgerHeader])]⟩,
           sheet_title e1) := by
        unfold get_or_create_user_sheet
        rw [h]
      rw [hfst]
      unfold get_or_create_user_sheet
      rw [show (⟨sh.worksheets ++ [(sheet_title e1, [ledgerHeader])]⟩ :
            Spreadsheet).worksheets =
          sh.worksheets ++ [(sheet_title e1, [ledgerHeader])] from rfl]
      rw [find_title_self sh.worksheets (sheet_title e1) h]
  · intro h
    unfold get_or_create_user_sheet
    rw [h]
  · intro hne
    rw [get_or_create_snd, get_or_create_snd]
    exact hne

/-- Witness for the amended C8 at concrete identities. -/
theorem claim8_witness :
    get_or_create_user_sheet
        (get_or_create_user_sheet ⟨[]⟩ "a@b.c").fst "a@b.c" =
      get_or_create_user_sheet ⟨[]⟩ "a@b.c" ∧
      (get_or_create_user_sheet ⟨[]⟩ "a@b.c").fst.worksheets =
        [] ++ [(sheet_title "a@b.c", [ledgerHeader])] ∧
      (get_or_create_user_sheet ⟨[]⟩ "a@b.c").snd ≠
        (get_or_create_user_sheet ⟨[]⟩ "x@y.z").snd := by
  have h := claim8_partition ⟨[]⟩ "a@b.c" "x@y.z"
  exact ⟨h.1, h.2.1 (by decide), h.2.2 (by decide)⟩

/-- A parseable Extractor output that violates the JobRecord schema: the
jobs list holds one empty object with none of the required fields. -/
def schemaViolatingOutput : Except String JValue :=
  .ok (.jobj [("jobs", .jarr [.jobj []])])

/-- The best-effort row the handler builds from an empty job object. -/
def emptyJobRow : JobRow := ⟨1, none, none, none, none, none, none, none, none, none⟩

/-- Counterexample to claim C7: `{"jobs": [{}]}` parses as JSON but does
not conform to the JobRecord schema, yet the analyze handler raises no
error, builds a best-effort batch with every field null, and overwrites the
session batch with it. -/
theorem claim7_counterexample :
    (analyzeHandler schemaViolatingOutput none).fst = some [emptyJobRow] ∧
      (analyzeHandler schemaViolatingOutput none).snd = none := by
  decide

/-- Claim C7 as amended: only an Extractor output that fails JSON parsing
(or whose top-level structure breaks attribute access) is fatal for the
batch, surfacing the error with session state unchanged; parseable JSON
that merely violates the JobRecord schema is handled best-effort — a
missing `jobs` key yields an empty batch, missing job fields become null,
and the session batch is overwritten. -/
theorem claim7_json_error_fatal (e : String) (sess : Option (List JobRow)) :
    analyzeHandler (.error e) sess = (sess, some e) ∧
      analyzeHandler (.ok (.jstr e)) sess =
        (sess, some "AttributeError: object has no attribute get") ∧
      analyzeHandler schemaViolatingOutput sess = (some [emptyJobRow], none) ∧
      analyzeHandler (.ok (.jobj [])) sess = (some [], none) := by
  refine ⟨rfl, ?_, rfl, rfl⟩
  rfl

/-- Witness for the amended C7 at a concrete malformed output and session. -/
theorem claim7_witness :
    analyzeHandler (.error "Expecting value: line 1 column 1") none =
        (none, some "Expecting value: line 1 column 1") ∧
      analyzeHandler schemaViolatingOutput (some [rowA]) =
        (some [emptyJobRow], none) := by
  have h1 := claim7_json_error_fatal "Expecting value: line 1 column 1" none
  have h2 := claim7_json_error_fatal "x" (some [rowA])
  exact ⟨h1.1, h2.2.2.1⟩

/-- Witness for C6 at a concrete session. -/
theorem claim6_witness :
    (reconcile (reconcile ⟨⟨true, [rowA]⟩, ledgerA⟩).fst).snd =
        (reconcile ⟨⟨true, [rowA]⟩, ledgerA⟩).snd ∧
      (reconcile (reconcile ⟨⟨true, [rowA]⟩, ledgerA⟩).fst).fst =
        (reconcile ⟨⟨true, [rowA]⟩, ledgerA⟩).fst :=
  claim6_reconcile_idempotent ⟨⟨true, [rowA]⟩, ledgerA⟩
